import Mathlib

/-
Verification development for the kubebox sandbox execution engine.

The server side (apps/sandbox/sandbox/main.py) keeps a process-wide
SessionManager mapping session identities to Sessions; each Session holds a
working-directory path, the identity of the currently attached push-channel
connection, and a registry of active Processes keyed by OS pid.  The HTTP
endpoints (POST /initialize, /run_command, /kill_command) and the push-channel
handlers (initialize, start_command_stream, check_status) are embedded below as
pure functions over that state.  Effects of the operating system (what a shell
command prints, how long it runs, which exit code a terminated process
reports) enter as explicit parameters, and Python dictionaries are embedded as
association lists whose insert replaces any previous binding for the key.

The client side (packages/kubebox/kubebox/_client.py) is embedded as a
ClientState holding the stream_queues mapping from process identity to its
delivery queue; the command_output / command_exit handlers index that mapping
directly, so a missing key is a lookup error, modelled with Except.
-/

/-- Association-list lookup: first binding for the key, like a Python dict
read with `.get`. -/
def lookupA {α β : Type} [DecidableEq α] : List (α × β) → α → Option β
  | [], _ => none
  | kv :: rest, k => if kv.1 = k then some kv.2 else lookupA rest k

/-- Association-list insert with dict semantics: the new binding replaces any
previous binding for the same key. -/
def insertA {α β : Type} [DecidableEq α] (l : List (α × β)) (k : α) (v : β) :
    List (α × β) :=
  (k, v) :: l.filter (fun kv => decide (kv.1 ≠ k))

/-- Association-list update in place (`if session: session.mutate()` style):
every binding for the key has its value mapped, other bindings untouched. -/
def updateA {α β : Type} [DecidableEq α] (l : List (α × β)) (k : α) (f : β → β) :
    List (α × β) :=
  l.map (fun kv => if kv.1 = k then (kv.1, f kv.2) else kv)

/-- Association-list removal, like dict `.pop(k, None)`. -/
def removeA {α β : Type} [DecidableEq α] (l : List (α × β)) (k : α) :
    List (α × β) :=
  l.filter (fun kv => decide (kv.1 ≠ k))

/-- `Process` from sandbox/main.py: pid, the live subprocess handle (modelled
by `hasHandle` together with the handle's current `osReturncode`, which is
`none` while the OS process is still running), and the `exit_code` attribute
the class maintains itself.  The raw stdout/stderr pipes are not stored here;
their contents appear as explicit line lists where streaming is modelled. -/
structure Process where
  pid : Nat
  hasHandle : Bool
  osReturncode : Option Int
  exit_code : Option Int
deriving DecidableEq

/-- `Process.returncode` property: fetched from the live handle when present,
else the stored `exit_code`. -/
def Process.returncode (p : Process) : Option Int :=
  if p.hasHandle then p.osReturncode else p.exit_code

/-- `Process.wait`: when a handle is present, block until the OS process has
exited and record the exit code.  `osCode` is the code the OS reports if the
process had not yet exited; an already-exited process keeps its code. -/
def Process.wait (p : Process) (osCode : Int) : Process :=
  if p.hasHandle then
    { pid := p.pid, hasHandle := p.hasHandle,
      osReturncode := some (p.osReturncode.getD osCode),
      exit_code := some (p.osReturncode.getD osCode) }
  else p

/-- `Session` from sandbox/main.py: identity, working-directory path, the
attached push-channel connection identity (`sid`, nullable), and the
`active_processes` registry keyed by pid. -/
structure Session where
  session_id : String
  path : String
  sid : Option String
  active_processes : List (Nat × Process)
deriving DecidableEq

/-- `Session.set_sid`. -/
def Session.set_sid (s : Session) (sid : String) : Session :=
  { s with sid := some sid }

/-- `Session.add_process`: registers the process under its pid. -/
def Session.add_process (s : Session) (p : Process) : Session :=
  { s with active_processes := insertA s.active_processes p.pid p }

/-- `Session.remove_process`: pops the process's pid from the registry. -/
def Session.remove_process (s : Session) (p : Process) : Session :=
  { s with active_processes := removeA s.active_processes p.pid }

/-- `Session.get_process`. -/
def Session.get_process (s : Session) (process_id : Nat) : Option Process :=
  lookupA s.active_processes process_id

/-- `SessionManager` from sandbox/main.py: the process-wide table of sessions
keyed by session identity. -/
structure SessionManager where
  sessions : List (String × Session)
deriving DecidableEq

/-- `SessionManager.create_session`: unconditionally binds the identity to a
brand-new Session (empty registry, no attached connection). -/
def SessionManager.create_session (sm : SessionManager) (session_id path : String) :
    SessionManager :=
  ⟨insertA sm.sessions session_id ⟨session_id, path, none, []⟩⟩

/-- `SessionManager.get_session`. -/
def SessionManager.get_session (sm : SessionManager) (session_id : String) :
    Option Session :=
  lookupA sm.sessions session_id

/-- Functional form of the Python pattern `session = get_session(...);
if session: mutate(session)`. -/
def SessionManager.updateSession (sm : SessionManager) (session_id : String)
    (f : Session → Session) : SessionManager :=
  ⟨updateA sm.sessions session_id f⟩

/-- `SessionManager.add_process`. -/
def SessionManager.add_process (sm : SessionManager) (session_id : String)
    (p : Process) : SessionManager :=
  sm.updateSession session_id (fun s => s.add_process p)

/-- `SessionManager.remove_process`. -/
def SessionManager.remove_process (sm : SessionManager) (session_id : String)
    (p : Process) : SessionManager :=
  sm.updateSession session_id (fun s => s.remove_process p)

/-- `SessionManager.get_process`: `None` when the session or process is
absent. -/
def SessionManager.get_process (sm : SessionManager) (session_id : String)
    (process_id : Nat) : Option Process :=
  (sm.get_session session_id).bind (fun s => s.get_process process_id)

/-- `SessionManager.set_session_sid`. -/
def SessionManager.set_session_sid (sm : SessionManager) (session_id sid : String) :
    SessionManager :=
  sm.updateSession session_id (fun s => s.set_sid sid)

/-- `SessionManager.get_session_by_sid`: first session whose attached
connection identity matches. -/
def SessionManager.get_session_by_sid (sm : SessionManager) (sid : String) :
    Option Session :=
  ((sm.sessions.find? (fun kv => decide (kv.2.sid = some sid))).map (fun kv => kv.2))

/-- Request body of POST /initialize. -/
structure InitType where
  session_id : String
  path : String
deriving DecidableEq

/-- POST /initialize: `init_data.path or "/default/path"` then
`create_session`; replies with the session identity. -/
def initializeRoute (sm : SessionManager) (init_data : InitType) :
    SessionManager × String :=
  (sm.create_session init_data.session_id
      (if init_data.path = "" then "/default/path" else init_data.path),
    init_data.session_id)

/-- What the OS shell does with a command: captured stdout and stderr text,
the exit code, and how long the command runs (seconds). -/
structure CmdBehavior where
  stdout : String
  stderr : String
  exit_code : Int
  runtime : Nat
deriving DecidableEq

/-- Response of POST /run_command.  `noBody` models the Python handler
falling off the end (returning `None`, an HTTP 200 with null body). -/
inductive RunResponse where
  | httpError (status : Nat) (detail : String)
  | processId (pid : Nat)
  | waitResult (stdout stderr : String) (exit_code : Int) (finished : Bool)
  | timeoutResult (error : String) (finished : Bool)
  | noBody
deriving DecidableEq

/-- POST /run_command from sandbox/main.py.  `b` is the shell's behaviour for
the requested command and `pid` the OS pid assigned on spawn.  Branch order
follows the source: stream, wait, background, then the implicit `None`.
In wait mode, `subprocess.run(..., timeout=timeout)` raises TimeoutExpired
exactly when the command runs longer than the timeout. -/
def run_command (sm : SessionManager) (session_id : String) (b : CmdBehavior)
    (pid : Nat) (mode : String) (timeout : Nat) : RunResponse × SessionManager :=
  match sm.get_session session_id with
  | none => (.httpError 400 "Session not found", sm)
  | some _ =>
    if mode = "stream" then
      (.processId pid,
        sm.add_process session_id ⟨pid, true, none, none⟩)
    else if mode = "wait" then
      if b.runtime ≤ timeout then
        (.waitResult b.stdout b.stderr b.exit_code (decide (b.exit_code = 0)), sm)
      else
        (.timeoutResult "Command timed out" false, sm)
    else if mode = "background" then
      (.processId pid,
        sm.add_process session_id ⟨pid, true, none, none⟩)
    else
      (.noBody, sm)

/-- Response of POST /kill_command. -/
inductive KillResponse where
  | killed (exit_code : Option Int)
  | httpError (status : Nat) (detail : String)
deriving DecidableEq

/-- True on the HTTPException branches of /kill_command. -/
def KillResponse.isError : KillResponse → Bool
  | .httpError _ _ => true
  | .killed _ => false

/-- POST /kill_command from sandbox/main.py: terminate the process, wait for
it, remove it from the session's registry, reply with its returncode.
`osCode` is the exit code the OS reports for the terminated process. -/
def kill_command (sm : SessionManager) (session_id : String) (process_id : Nat)
    (osCode : Int) : KillResponse × SessionManager :=
  match sm.get_session session_id with
  | none => (.httpError 400 "Session not found", sm)
  | some session =>
    match session.get_process process_id with
    | none => (.httpError 404 "No such process", sm)
    | some process =>
      (.killed (process.wait osCode).returncode,
        sm.updateSession session_id (fun s => s.remove_process (process.wait osCode)))

/-- Push-channel `initialize` handler: a missing/empty session identity
(Python falsy) raises "Session ID is required" without touching any binding;
otherwise the connection identity is bound to the session (replacing any
previous binding) and the handler replies `initialized`. -/
def sioInitializeHandler (sm : SessionManager) (sid : String)
    (session_id : String) : SessionManager × Except String (String × String) :=
  if session_id = "" then (sm, Except.error "Session ID is required")
  else (sm.set_session_sid session_id sid, Except.ok ("success", session_id))

/-- Reply of the push-channel `check_status` handler.  `running` is an
`Option Bool` because the Python expression `process and process.returncode
is None` evaluates to `None` (JSON null) when the process is absent. -/
structure StatusReply where
  running : Option Bool
  session_id : Option String
deriving DecidableEq

/-- Push-channel `check_status` handler from sandbox/main.py: session looked
up by connection identity, `running = process and process.returncode is
None`; with no session the reply is `running=False, session_id=None`. -/
def check_status (sm : SessionManager) (sid : String) (process_id : Nat) :
    StatusReply :=
  match sm.get_session_by_sid sid with
  | some session =>
    ⟨match session.get_process process_id with
      | none => none
      | some process => some (decide (process.returncode = none)),
      some session.session_id⟩
  | none => ⟨some false, none⟩

/-- One observable step of the server's `stream_output` task: a pushed
`command_output` event, the deregistration of the process from its session,
or a pushed `command_exit` terminal event. -/
inductive StreamAction where
  | out (line : String) (stype : String) (pid : Nat)
  | deregister (pid : Nat)
  | exitEv (code : Option Int) (pid : Nat)
deriving DecidableEq

/-- True on `command_output` actions. -/
def StreamAction.isOut : StreamAction → Bool
  | .out _ _ _ => true
  | _ => false

/-- True on terminal `command_exit` actions. -/
def StreamAction.isExit : StreamAction → Bool
  | .exitEv _ _ => true
  | _ => false

/-- True on `command_output` actions carrying the given stream
discriminator. -/
def StreamAction.isOutType (t : String) : StreamAction → Bool
  | .out _ stype _ => decide (stype = t)
  | _ => false

/-- `read_stream` inner coroutine of `start_command_stream`: reads the pipe
line by line until end-of-input, pushing one `command_output` event per line.
`lines` is what the command wrote to that pipe, split into lines. -/
def read_stream (lines : List String) (stream_type : String) (pid : Nat) :
    List StreamAction :=
  lines.map (fun line => .out line stream_type pid)

/-- An interleaving of two event sequences that preserves the order within
each: the possible merged outputs of `asyncio.gather(read_stream(stdout),
read_stream(stderr))`, whose two loops run concurrently. -/
inductive Interleaves :
    List StreamAction → List StreamAction → List StreamAction → Prop where
  | nil : Interleaves [] [] []
  | left {x : StreamAction} {xs ys zs : List StreamAction} :
      Interleaves xs ys zs → Interleaves (x :: xs) ys (x :: zs)
  | right {y : StreamAction} {xs ys zs : List StreamAction} :
      Interleaves xs ys zs → Interleaves xs (y :: ys) (y :: zs)

/-- The two cleanup actions the `finally` block of `stream_output` performs,
in program order: deregister the Process from its Session, then push the
terminal `command_exit` event carrying the waited-for exit code and the
process identity.  `osCode` is the exit code the OS reports once the process
has exited. -/
def cleanupActions (process : Process) (osCode : Int) : List StreamAction :=
  [.deregister process.pid, .exitEv (process.wait osCode).exit_code process.pid]

/-- Registry effect of the `finally` block: `await process.wait()` followed
by `session_manager.remove_process(session_id, process)`. -/
def streamCleanupState (sm : SessionManager) (session_id : String)
    (process : Process) (osCode : Int) : SessionManager :=
  sm.remove_process session_id (process.wait osCode)

/-- The event traces the `stream_output` task of `start_command_stream` can
produce.  On the normal path the gathered read loops push a full
interleaving of both streams and the `finally` cleanup strictly follows.
When one read raises mid-stream (`readFails`), `asyncio.gather` propagates
the exception at once but does not cancel the sibling read loop: the failed
stream has pushed `j` lines and the survivor `i` lines by the time the
exception escapes the `try` block, and the survivor keeps pushing its
remaining lines concurrently with — hence in arbitrary interleaving with —
the `finally` cleanup. -/
inductive StreamRun (process : Process) (osCode : Int)
    (stdoutLines stderrLines : List String) : List StreamAction → Prop where
  | normal (emitted : List StreamAction)
      (hm : Interleaves (read_stream stdoutLines "stdout" process.pid)
        (read_stream stderrLines "stderr" process.pid) emitted) :
      StreamRun process osCode stdoutLines stderrLines
        (emitted ++ cleanupActions process osCode)
  | readFails (failed survivor : List StreamAction) (j i : Nat)
      (pre post : List StreamAction)
      (hstreams :
        (failed = read_stream stdoutLines "stdout" process.pid ∧
          survivor = read_stream stderrLines "stderr" process.pid) ∨
        (failed = read_stream stderrLines "stderr" process.pid ∧
          survivor = read_stream stdoutLines "stdout" process.pid))
      (hpre : Interleaves (failed.take j) (survivor.take i) pre)
      (hpost : Interleaves (survivor.drop i) (cleanupActions process osCode)
        post) :
      StreamRun process osCode stdoutLines stderrLines (pre ++ post)

/-- `command_output` event payload as parsed by the client
(`CommandOutput(**data)`). -/
structure CommandOutput where
  output : String
  type : String
  process_id : Nat
deriving DecidableEq

/-- Client-side state relevant to stream correlation: the `stream_queues`
mapping from process identity to its delivery queue.  A queue entry of
`none` is the end-of-stream sentinel. -/
structure ClientState where
  stream_queues : List (Nat × List (Option CommandOutput))
deriving DecidableEq

/-- True when the handler ran without raising. -/
def exceptOk {ε α : Type} : Except ε α → Bool
  | .ok _ => true
  | .error _ => false

/-- `SandboxClient.on_command_output`: indexes `stream_queues` directly by
the event's process identity (`self.stream_queues[data.process_id]`), so a
missing key raises KeyError; otherwise the record is enqueued. -/
def SandboxClient.on_command_output (st : ClientState) (data : CommandOutput) :
    Except String ClientState :=
  match lookupA st.stream_queues data.process_id with
  | none => Except.error "KeyError"
  | some q =>
    Except.ok ⟨updateA st.stream_queues data.process_id (fun _ => q ++ [some data])⟩

/-- `SandboxClient.on_command_exit`: same direct indexing; enqueues the
end-of-stream sentinel. -/
def SandboxClient.on_command_exit (st : ClientState) (process_id : Nat) :
    Except String ClientState :=
  match lookupA st.stream_queues process_id with
  | none => Except.error "KeyError"
  | some q =>
    Except.ok ⟨updateA st.stream_queues process_id (fun _ => q ++ [none])⟩

/-- The stream-mode tail of `SandboxClient.run_command`: having received the
process identity from the server, it creates the delivery queue and only then
emits the `start_command_stream` attach message (returned here as the pair of
session and process identity). -/
def SandboxClient.run_command_stream (st : ClientState) (session_id : String)
    (process_id : Nat) : ClientState × (String × Nat) :=
  (⟨insertA st.stream_queues process_id []⟩, (session_id, process_id))

/-- A fresh insert is found by lookup. -/
theorem lookupA_insertA_self {α β : Type} [DecidableEq α] (l : List (α × β))
    (k : α) (v : β) : lookupA (insertA l k v) k = some v := by
  simp [insertA, lookupA]

/-- A removed key is no longer found by lookup. -/
theorem lookupA_removeA_self {α β : Type} [DecidableEq α] (l : List (α × β))
    (k : α) : lookupA (removeA l k) k = none := by
  induction l with
  | nil => rfl
  | cons kv rest ih =>
    by_cases h : kv.1 = k
    · simpa [removeA, List.filter_cons, h] using ih
    · simpa [removeA, List.filter_cons, h, lookupA] using ih

/-- Lookup after an in-place update maps the stored value. -/
theorem lookupA_updateA_self {α β : Type} [DecidableEq α] (l : List (α × β))
    (k : α) (f : β → β) : lookupA (updateA l k f) k = (lookupA l k).map f := by
  induction l with
  | nil => rfl
  | cons kv rest ih =>
    by_cases h : kv.1 = k
    · simp [updateA, lookupA, h]
    · simpa [updateA, lookupA, h] using ih

/-- Inserting the same binding twice is the same as inserting it once. -/
theorem insertA_idem {α β : Type} [DecidableEq α] (l : List (α × β)) (k : α)
    (v : β) : insertA (insertA l k v) k v = insertA l k v := by
  simp [insertA, List.filter_cons, List.filter_filter]

/-- `get_session` after `updateSession` maps the stored session. -/
theorem get_session_updateSession (sm : SessionManager) (session_id : String)
    (f : Session → Session) :
    (sm.updateSession session_id f).get_session session_id =
      (sm.get_session session_id).map f := by
  simp [SessionManager.updateSession, SessionManager.get_session,
    lookupA_updateA_self]

/-- After `remove_process`, the removed pid is gone from the registry. -/
theorem get_process_remove_process (sm : SessionManager) (session_id : String)
    (p : Process) :
    (sm.remove_process session_id p).get_process session_id p.pid = none := by
  unfold SessionManager.remove_process SessionManager.get_process
  rw [get_session_updateSession]
  cases sm.get_session session_id with
  | none => rfl
  | some s =>
    simp [Session.remove_process, Session.get_process, lookupA_removeA_self]

/-- Every element of a merge comes from one of the two sides. -/
theorem interleaves_mem {xs ys zs : List StreamAction}
    (h : Interleaves xs ys zs) : ∀ a ∈ zs, a ∈ xs ∨ a ∈ ys := by
  induction h with
  | nil => intro a ha; cases ha
  | left hrec ih =>
    intro a ha
    rcases List.mem_cons.mp ha with h1 | h1
    · exact Or.inl (h1 ▸ List.mem_cons_self _ _)
    · rcases ih a h1 with h2 | h2
      · exact Or.inl (List.mem_cons_of_mem _ h2)
      · exact Or.inr h2
  | right hrec ih =>
    intro a ha
    rcases List.mem_cons.mp ha with h1 | h1
    · exact Or.inr (h1 ▸ List.mem_cons_self _ _)
    · rcases ih a h1 with h2 | h2
      · exact Or.inl h2
      · exact Or.inr (List.mem_cons_of_mem _ h2)

/-- Merging is symmetric. -/
theorem interleaves_swap {xs ys zs : List StreamAction}
    (h : Interleaves xs ys zs) : Interleaves ys xs zs := by
  induction h with
  | nil => exact .nil
  | left hrec ih => exact .right ih
  | right hrec ih => exact .left ih

/-- Filtering a merge by a predicate that holds on all of the left side and
on none of the right side recovers exactly the left side. -/
theorem interleaves_filter_left {xs ys zs : List StreamAction}
    {q : StreamAction → Bool} (h : Interleaves xs ys zs)
    (h1 : ∀ a ∈ xs, q a = true) (h2 : ∀ a ∈ ys, q a = false) :
    zs.filter q = xs := by
  induction h with
  | nil => rfl
  | left hrec ih =>
    rename_i x xs' ys' zs'
    have hx : q x = true := h1 x (List.mem_cons_self _ _)
    simp only [List.filter_cons, hx, if_true]
    exact congrArg (x :: ·) (ih (fun a ha => h1 a (List.mem_cons_of_mem _ ha)) h2)
  | right hrec ih =>
    rename_i y xs' ys' zs'
    have hy : q y = false := h2 y (List.mem_cons_self _ _)
    simp only [List.filter_cons, hy, Bool.false_eq_true, if_false]
    exact ih h1 (fun a ha => h2 a (List.mem_cons_of_mem _ ha))

/-- Every event a read loop pushes is a `command_output` record. -/
theorem read_stream_isOut (lines : List String) (stream_type : String)
    (pid : Nat) : ∀ a ∈ read_stream lines stream_type pid,
      StreamAction.isOut a = true := by
  intro a ha
  rcases List.mem_map.mp ha with ⟨line, _, rfl⟩
  rfl

/-- An output record is never a terminal event. -/
theorem isOut_not_isExit (a : StreamAction) (h : StreamAction.isOut a = true) :
    StreamAction.isExit a = false := by
  cases a <;> simp_all [StreamAction.isOut, StreamAction.isExit]

/-- Manager reached by initializing session "S" and registering one process
with pid 5 in it. -/
def claim3Manager : SessionManager :=
  ((initializeRoute ⟨[]⟩ ⟨"S", "/work"⟩).1).add_process "S" ⟨5, true, none, none⟩

/-- Claim C3 counterexample: with process 5 registered in session "S", a
repeated `initialize` for "S" replaces the Session with a fresh one, so the
registry afterwards (empty) differs from the registry before (holding
process 5) — the claim that the registry contents are preserved is false. -/
theorem initialize_repeat_loses_registry :
    claim3Manager.get_process "S" 5 = some ⟨5, true, none, none⟩ ∧
    (initializeRoute claim3Manager ⟨"S", "/work"⟩).1.get_process "S" 5 = none := by
  constructor <;> decide

/-- Claim C3 (amended): a repeated `initialize` with the same session
identity creates no duplicate Sessions or Processes — the whole call is
idempotent as a state transformer — but it rebinds the identity to a fresh
Session whose process registry is empty, so existing registry contents are
preserved only when the registry was already empty. -/
theorem initialize_repeat_fresh_session (sm : SessionManager) (d : InitType) :
    initializeRoute (initializeRoute sm d).1 d = initializeRoute sm d ∧
    (initializeRoute sm d).1.get_session d.session_id =
      some ⟨d.session_id, if d.path = "" then "/default/path" else d.path,
        none, []⟩ := by
  constructor
  · simp [initializeRoute, SessionManager.create_session, insertA_idem]
  · simp [initializeRoute, SessionManager.create_session,
      SessionManager.get_session, lookupA_insertA_self]

/-- Claim C8: a Session's attached-connection identity is a single nullable
field, so at most one binding exists at any time; for a nonempty session
identity (an empty one makes the handler raise before binding anything) a
second push-channel `initialize` handshake replaces the previous binding,
and registering or deregistering processes leaves the binding untouched. -/
theorem session_single_connection_binding (sess : Session) (c1 c2 : String)
    (p q : Process) (sm : SessionManager) (s cA cB : String)
    (hs : s ≠ "") :
    ((sess.set_sid c1).set_sid c2).sid = some c2 ∧
    (sess.add_process p).sid = sess.sid ∧
    (sess.remove_process q).sid = sess.sid ∧
    ((sioInitializeHandler (sioInitializeHandler sm cA s).1 cB s).1.get_session
        s).map Session.sid = (sm.get_session s).map (fun _ => some cB) := by
  refine ⟨rfl, rfl, rfl, ?_⟩
  have hred : (sioInitializeHandler (sioInitializeHandler sm cA s).1 cB s).1 =
      (sm.set_session_sid s cA).set_session_sid s cB := by
    simp [sioInitializeHandler, hs]
  rw [hred, SessionManager.set_session_sid, SessionManager.set_session_sid,
    get_session_updateSession, get_session_updateSession]
  cases sm.get_session s with
  | none => rfl
  | some x => rfl

/-- Manager holding just session "S" for the handshake witness. -/
def claim8Manager : SessionManager :=
  (⟨[]⟩ : SessionManager).create_session "S" "/work"

/-- Witness for claim C8: two successive handshakes for session "S" leave
exactly the second connection identity bound. -/
theorem session_single_connection_binding_witness :
    (((sioInitializeHandler (sioInitializeHandler claim8Manager "connA" "S").1
        "connB" "S").1.get_session "S").map Session.sid =
      some (some "connB")) := by
  have h := session_single_connection_binding ⟨"S", "/work", none, []⟩ "c1"
    "c2" ⟨1, true, none, none⟩ ⟨1, true, none, none⟩ claim8Manager "S" "connA"
    "connB" (by decide)
  rw [h.2.2.2]
  decide

/-- Claim C9: with a valid session but a mode string that is none of
"stream", "wait" or "background", the /run_command handler falls through all
three branches and returns no result body at all (Python `None`), rather
than an error. -/
theorem run_command_unknown_mode (sm : SessionManager) (session_id : String)
    (b : CmdBehavior) (pid : Nat) (mode : String) (timeout : Nat) (s : Session)
    (hs : sm.get_session session_id = some s) (h1 : mode ≠ "stream")
    (h2 : mode ≠ "wait") (h3 : mode ≠ "background") :
    run_command sm session_id b pid mode timeout = (.noBody, sm) := by
  simp [run_command, hs, h1, h2, h3]

/-- Witness for claim C9 at mode "restart" against a one-session manager. -/
theorem run_command_unknown_mode_witness :
    run_command (⟨[("S", ⟨"S", "/work", none, []⟩)]⟩ : SessionManager) "S"
        ⟨"", "", 0, 0⟩ 3 "restart" 10 =
      (RunResponse.noBody, (⟨[("S", ⟨"S", "/work", none, []⟩)]⟩ : SessionManager)) :=
  run_command_unknown_mode _ "S" _ 3 "restart" 10 ⟨"S", "/work", none, []⟩
    (by decide) (by decide) (by decide) (by decide)

/-- Claim C2: a wait-mode command that completes within the timeout is
answered with its captured stdout, stderr and numeric exit code, the
`finished` flag is true exactly when the exit code is zero, and the session
registry is left unchanged. -/
theorem run_command_wait_completes (sm : SessionManager) (session_id : String)
    (b : CmdBehavior) (pid : Nat) (timeout : Nat) (s : Session)
    (hs : sm.get_session session_id = some s) (ht : b.runtime ≤ timeout) :
    (run_command sm session_id b pid "wait" timeout).1 =
      .waitResult b.stdout b.stderr b.exit_code (decide (b.exit_code = 0)) ∧
    ((decide (b.exit_code = 0)) = true ↔ b.exit_code = 0) ∧
    (run_command sm session_id b pid "wait" timeout).2 = sm := by
  refine ⟨?_, by simp, ?_⟩ <;> simp [run_command, hs, ht]

/-- Manager holding just the initialized session "S". -/
def claim2Manager : SessionManager := (initializeRoute ⟨[]⟩ ⟨"S", "/work"⟩).1

/-- Shell behaviour of `echo hi`: prints "hi\n", exits 0 immediately. -/
def echoHiBehavior : CmdBehavior := ⟨"hi\n", "", 0, 0⟩

/-- Witness for claim C2: scenario A of the spec,
`run_command(S, "echo hi", mode=wait, timeout=5)`. -/
theorem run_command_wait_completes_witness :
    (run_command claim2Manager "S" echoHiBehavior 7 "wait" 5).1 =
      RunResponse.waitResult "hi\n" "" 0 true :=
  (run_command_wait_completes claim2Manager "S" echoHiBehavior 7 5
    ⟨"S", "/work", none, []⟩ (by decide) (by decide)).1

/-- Claim C5: a wait-mode command that runs longer than the timeout is
answered with the structured result `{error: "Command timed out",
finished: false}` — not an exception — and the registry is unchanged. -/
theorem run_command_wait_timeout (sm : SessionManager) (session_id : String)
    (b : CmdBehavior) (pid : Nat) (timeout : Nat) (s : Session)
    (hs : sm.get_session session_id = some s) (ht : timeout < b.runtime) :
    (run_command sm session_id b pid "wait" timeout).1 =
      .timeoutResult "Command timed out" false ∧
    (run_command sm session_id b pid "wait" timeout).2 = sm := by
  have hnot : ¬ b.runtime ≤ timeout := not_le.mpr ht
  constructor <;> simp [run_command, hs, hnot]

/-- Shell behaviour of `sleep 5`: silent, exit 0, five seconds long. -/
def sleepFiveBehavior : CmdBehavior := ⟨"", "", 0, 5⟩

/-- Witness for claim C5: scenario B of the spec,
`run_command(S, "sleep 5", mode=wait, timeout=1)`. -/
theorem run_command_wait_timeout_witness :
    (run_command claim2Manager "S" sleepFiveBehavior 7 "wait" 1).1 =
      RunResponse.timeoutResult "Command timed out" false :=
  (run_command_wait_timeout claim2Manager "S" sleepFiveBehavior 7 1
    ⟨"S", "/work", none, []⟩ (by decide) (by decide)).1

/-- Manager holding just session "S" with an empty registry. -/
def claim7Manager : SessionManager :=
  (⟨[]⟩ : SessionManager).create_session "S" "/work"

/-- Shell behaviour of an invalid command under `shell=True`: the shell
itself spawns fine and reports the lookup failure through exit code 127 on
stderr. -/
def invalidCommandBehavior : CmdBehavior :=
  ⟨"", "/bin/sh: 1: frobnicate: not found\n", 127, 0⟩

/-- Claim C7 counterexample: running the invalid command `frobnicate` in wait
mode yields an ordinary wait result carrying the shell's nonzero exit code
127 — the handler has no spawn-error branch at all (only TimeoutExpired is
caught), so a spawn failure is not distinct from a command that ran and
failed. -/
theorem run_command_spawn_error_counterexample :
    (run_command claim7Manager "S" invalidCommandBehavior 3 "wait" 10).1 =
      RunResponse.waitResult "" "/bin/sh: 1: frobnicate: not found\n" 127
        false := by
  decide

/-- Claim C7 (amended): an unknown session identity yields the
session-not-found error (HTTP 400, "Session not found"); an invalid command
is not surfaced as a distinct spawn error — under shell spawning it produces
an ordinary wait result carrying the shell's nonzero exit code — and a
wait-mode call registers no Process (the manager is returned unchanged). -/
theorem run_command_error_paths (sm : SessionManager) (session_id : String)
    (b : CmdBehavior) (pid : Nat) (mode : String) (timeout : Nat) :
    (sm.get_session session_id = none →
      run_command sm session_id b pid mode timeout =
        (.httpError 400 "Session not found", sm)) ∧
    (∀ s, sm.get_session session_id = some s → b.runtime ≤ timeout →
      run_command sm session_id b pid "wait" timeout =
        (.waitResult b.stdout b.stderr b.exit_code (decide (b.exit_code = 0)),
          sm)) := by
  constructor
  · intro hs; simp [run_command, hs]
  · intro s hs ht; simp [run_command, hs, ht]

/-- Witness for claim C7: the empty manager rejects session "ghost" with the
session-not-found error, and session "S" answers the invalid command with an
ordinary exit-code-127 result, leaving the manager unchanged. -/
theorem run_command_error_paths_witness :
    run_command (⟨[]⟩ : SessionManager) "ghost" invalidCommandBehavior 3
        "wait" 10 =
      (RunResponse.httpError 400 "Session not found", (⟨[]⟩ : SessionManager)) ∧
    run_command claim7Manager "S" invalidCommandBehavior 3 "wait" 10 =
      (RunResponse.waitResult "" "/bin/sh: 1: frobnicate: not found\n" 127
        false, claim7Manager) := by
  constructor
  · exact (run_command_error_paths ⟨[]⟩ "ghost" invalidCommandBehavior 3
      "wait" 10).1 rfl
  · exact (run_command_error_paths claim7Manager "S" invalidCommandBehavior 3
      "wait" 10).2 ⟨"S", "/work", none, []⟩ (by decide) (by decide)

/-- Manager with session "S" bound to connection "conn1" and an empty
process registry. -/
def claim4Manager : SessionManager :=
  ((⟨[]⟩ : SessionManager).create_session "S" "/work").set_session_sid "S"
    "conn1"

/-- Claim C4 counterexample: with the session present (found by its attached
connection) but process 7 absent, the reply's `running` field is Python
`None` (JSON null) — the expression `process and process.returncode is None`
short-circuits to the absent process — not the `false` the claim
promises. -/
theorem check_status_absent_process_null :
    claim4Manager.get_session_by_sid "conn1" =
      some ⟨"S", "/work", some "conn1", []⟩ ∧
    claim4Manager.get_process "S" 7 = none ∧
    (check_status claim4Manager "conn1" 7).running = none ∧
    (check_status claim4Manager "conn1" 7).running ≠ some false := by
  refine ⟨?_, ?_, ?_, ?_⟩ <;> decide

/-- Claim C4 (amended): `running` is `true` exactly when the session is
found by the attached-connection identity, the process is registered in its
registry, and the process has no observed exit code; an absent session
yields `running = false`, while a present session with an absent process
yields `running = null` (a falsy value, still not an error — the handler
never fails the caller). -/
theorem check_status_running_semantics (sm : SessionManager) (sid : String)
    (process_id : Nat) :
    ((check_status sm sid process_id).running = some true ↔
      ∃ s, sm.get_session_by_sid sid = some s ∧
        ∃ p, s.get_process process_id = some p ∧ p.returncode = none) ∧
    (sm.get_session_by_sid sid = none →
      (check_status sm sid process_id).running = some false) ∧
    (∀ s, sm.get_session_by_sid sid = some s → s.get_process process_id = none →
      (check_status sm sid process_id).running = none) := by
  refine ⟨?_, fun h => by simp [check_status, h], fun s hs hp => by
    simp [check_status, hs, hp]⟩
  cases hses : sm.get_session_by_sid sid with
  | none => simp [check_status, hses]
  | some s =>
    cases hp : s.get_process process_id with
    | none => simp [check_status, hses, hp]
    | some p => simp [check_status, hses, hp]

/-- Manager with session "T" bound to connection "conn2", holding the
still-running process 9. -/
def claim4RunningManager : SessionManager :=
  (((⟨[]⟩ : SessionManager).create_session "T" "/work").set_session_sid "T"
    "conn2").add_process "T" ⟨9, true, none, none⟩

/-- Witness for claim C4 (amended): a registered, still-running process
reports `running = true`; an unknown connection reports `running = false`. -/
theorem check_status_running_semantics_witness :
    (check_status claim4RunningManager "conn2" 9).running = some true ∧
    (check_status (⟨[]⟩ : SessionManager) "nobody" 1).running = some false := by
  constructor
  · exact (check_status_running_semantics claim4RunningManager "conn2" 9).1.mpr
      ⟨⟨"T", "/work", some "conn2", [(9, ⟨9, true, none, none⟩)]⟩, by decide,
        ⟨9, true, none, none⟩, by decide, by decide⟩
  · exact (check_status_running_semantics (⟨[]⟩ : SessionManager) "nobody"
      1).2.1 rfl

/-- Claim C6: /kill_command fails with a not-found HTTP error exactly when
the named process is not registered under the session (an unknown session is
"Session not found", an unknown process "No such process"); for a registered
live process it terminates and waits on it, answers `status="killed"` with
the final exit code the OS reports, and the process is gone from the
registry afterwards. -/
theorem kill_command_not_found_iff (sm : SessionManager) (session_id : String)
    (process_id : Nat) (osCode : Int) :
    ((kill_command sm session_id process_id osCode).1.isError = true ↔
      sm.get_process session_id process_id = none) ∧
    (∀ p, sm.get_process session_id process_id = some p → p.pid = process_id →
      p.hasHandle = true → p.osReturncode = none →
      (kill_command sm session_id process_id osCode).1 =
        .killed (some osCode) ∧
      (kill_command sm session_id process_id osCode).2.get_process session_id
        process_id = none) := by
  cases hses : sm.get_session session_id with
  | none =>
    constructor
    · simp [kill_command, hses, SessionManager.get_process,
        KillResponse.isError]
    · intro p hp
      rw [SessionManager.get_process, hses] at hp
      cases hp
  | some s =>
    cases hproc : s.get_process process_id with
    | none =>
      constructor
      · simp [kill_command, hses, hproc, SessionManager.get_process,
          KillResponse.isError]
      · intro p hp
        rw [SessionManager.get_process, hses] at hp
        have hp2 : s.get_process process_id = some p := hp
        rw [hproc] at hp2
        cases hp2
    | some p0 =>
      constructor
      · simp [kill_command, hses, hproc, SessionManager.get_process,
          KillResponse.isError]
      · intro p hp hpid hh hos
        rw [SessionManager.get_process, hses] at hp
        have hp2 : s.get_process process_id = some p := hp
        rw [hproc] at hp2
        cases hp2
        constructor
        · simp [kill_command, hses, hproc, Process.wait, Process.returncode,
            hh, hos]
        · have hwpid : (p0.wait osCode).pid = p0.pid := by
            rw [Process.wait]; split <;> rfl
          have hgoal := get_process_remove_process sm session_id (p0.wait osCode)
          rw [hwpid, hpid] at hgoal
          simpa [kill_command, hses, hproc, SessionManager.remove_process]
            using hgoal
  
/-- Manager with session "S" holding the still-running process 5. -/
def claim6Manager : SessionManager :=
  ((⟨[]⟩ : SessionManager).create_session "S" "/work").add_process "S"
    ⟨5, true, none, none⟩

/-- Witness for claim C6: killing registered process 5 answers
`killed` with the termination exit code −15 and deregisters it. -/
theorem kill_command_not_found_iff_witness :
    (kill_command claim6Manager "S" 5 (-15)).1 =
      KillResponse.killed (some (-15)) ∧
    (kill_command claim6Manager "S" 5 (-15)).2.get_process "S" 5 = none :=
  (kill_command_not_found_iff claim6Manager "S" 5 (-15)).2
    ⟨5, true, none, none⟩ (by decide) rfl rfl rfl

/-- Merging with an exhausted right side is the identity. -/
theorem interleaves_nil_right {xs ys zs : List StreamAction}
    (h : Interleaves xs ys zs) : ys = [] → zs = xs := by
  induction h with
  | nil => intro _; rfl
  | left hrec ih =>
    rename_i x xs2 ys2 zs2
    intro hys
    rw [ih hys]
  | right hrec ih =>
    intro hys
    cases hys

/-- A merge against a one-element right side splits around that element,
with everything else drawn from the left side. -/
theorem interleaves_right_decomp {xs ys zs : List StreamAction}
    {b : StreamAction} (h : Interleaves xs ys zs) :
    ys = [b] → ∃ m1 m2, zs = m1 ++ b :: m2 ∧
      (∀ a ∈ m1, a ∈ xs) ∧ (∀ a ∈ m2, a ∈ xs) := by
  induction h with
  | nil => intro hys; cases hys
  | left hrec ih =>
    rename_i x xs2 ys2 zs2
    intro hys
    rcases ih hys with ⟨m1, m2, hz, hm1, hm2⟩
    refine ⟨x :: m1, m2, by simp [hz], ?_, ?_⟩
    · intro a ha
      rcases List.mem_cons.mp ha with rfl | ha2
      · exact List.mem_cons_self _ _
      · exact List.mem_cons_of_mem _ (hm1 a ha2)
    · intro a ha
      exact List.mem_cons_of_mem _ (hm2 a ha)
  | right hrec ih =>
    rename_i y xs2 ys2 zs2
    intro hys
    injection hys with hy hys2
    subst hy
    have hz : zs2 = xs2 := interleaves_nil_right hrec hys2
    refine ⟨[], zs2, by simp, ?_, ?_⟩
    · intro a ha
      cases ha
    · intro a ha
      rw [hz] at ha
      exact ha

/-- A merge against a two-element right side splits around both elements in
order, with everything else drawn from the left side. -/
theorem interleaves_pair_right_decomp {xs ys zs : List StreamAction}
    {b1 b2 : StreamAction} (h : Interleaves xs ys zs) :
    ys = [b1, b2] → ∃ m1 m2 m3, zs = m1 ++ b1 :: (m2 ++ b2 :: m3) ∧
      (∀ a ∈ m1, a ∈ xs) ∧ (∀ a ∈ m2, a ∈ xs) ∧ (∀ a ∈ m3, a ∈ xs) := by
  induction h with
  | nil => intro hys; cases hys
  | left hrec ih =>
    rename_i x xs2 ys2 zs2
    intro hys
    rcases ih hys with ⟨m1, m2, m3, hz, hm1, hm2, hm3⟩
    refine ⟨x :: m1, m2, m3, by simp [hz], ?_, ?_, ?_⟩
    · intro a ha
      rcases List.mem_cons.mp ha with rfl | ha2
      · exact List.mem_cons_self _ _
      · exact List.mem_cons_of_mem _ (hm1 a ha2)
    · intro a ha
      exact List.mem_cons_of_mem _ (hm2 a ha)
    · intro a ha
      exact List.mem_cons_of_mem _ (hm3 a ha)
  | right hrec ih =>
    rename_i y xs2 ys2 zs2
    intro hys
    injection hys with hy hys2
    subst hy
    rcases interleaves_right_decomp hrec hys2 with ⟨m2, m3, hz, hm2, hm3⟩
    refine ⟨[], m2, m3, by simp [hz], ?_, hm2, hm3⟩
    intro a ha
    cases ha

/-- A trace made of output records around one deregister and one terminal
event contains exactly one terminal event. -/
theorem countP_isExit_decomp (l1 l2 l3 : List StreamAction) (pid : Nat)
    (c : Option Int) (h1 : ∀ a ∈ l1, StreamAction.isOut a = true)
    (h2 : ∀ a ∈ l2, StreamAction.isOut a = true)
    (h3 : ∀ a ∈ l3, StreamAction.isOut a = true) :
    (l1 ++ StreamAction.deregister pid ::
      (l2 ++ StreamAction.exitEv c pid :: l3)).countP StreamAction.isExit
      = 1 := by
  have z1 : l1.countP StreamAction.isExit = 0 :=
    List.countP_eq_zero.mpr (fun a ha => by
      simp [isOut_not_isExit a (h1 a ha)])
  have z2 : l2.countP StreamAction.isExit = 0 :=
    List.countP_eq_zero.mpr (fun a ha => by
      simp [isOut_not_isExit a (h2 a ha)])
  have z3 : l3.countP StreamAction.isExit = 0 :=
    List.countP_eq_zero.mpr (fun a ha => by
      simp [isOut_not_isExit a (h3 a ha)])
  simp [List.countP_append, List.countP_cons, z1, z2, z3, StreamAction.isExit]

/-- The cleanup actions contain no output records of any stream type. -/
theorem cleanup_filter_out (process : Process) (osCode : Int) (t : String) :
    (cleanupActions process osCode).filter (StreamAction.isOutType t) = [] :=
  rfl

/-- The still-running streamed process with pid 5. -/
def claim1Process : Process := ⟨5, true, none, none⟩

/-- Manager with session "S" holding the streamed process 5. -/
def claim1Manager : SessionManager :=
  ((⟨[]⟩ : SessionManager).create_session "S" "/work").add_process "S"
    claim1Process

/-- One interleaving of a one-line stdout and a one-line stderr. -/
def claim1Emitted : List StreamAction :=
  [.out "a\n" "stdout" 5, .out "b\n" "stderr" 5]

/-- Claim C1 counterexample: when the stdout reader raises before its first
line, `asyncio.gather` propagates the exception without cancelling the
stderr reader, so the program admits the trace deregister, command_exit,
command_output — an output record delivered after the terminal event.  This
refutes the claim that the terminal event is emitted only after both read
loops have finished emitting all output records, on the very exception path
the claim covers. -/
theorem stream_exception_output_after_exit :
    StreamRun claim1Process 0 ["a\n"] ["b\n"]
      [StreamAction.deregister 5, StreamAction.exitEv (some 0) 5,
        StreamAction.out "b\n" "stderr" 5] ∧
    [StreamAction.deregister 5, StreamAction.exitEv (some 0) 5,
      StreamAction.out "b\n" "stderr" 5].getLast? ≠
      some (StreamAction.exitEv (some 0) 5) := by
  constructor
  · exact StreamRun.readFails
      (read_stream ["a\n"] "stdout" claim1Process.pid)
      (read_stream ["b\n"] "stderr" claim1Process.pid) 0 0 []
      [StreamAction.deregister 5, StreamAction.exitEv (some 0) 5,
        StreamAction.out "b\n" "stderr" 5]
      (Or.inl ⟨rfl, rfl⟩) Interleaves.nil
      (Interleaves.right (Interleaves.right (Interleaves.left
        Interleaves.nil)))
  · decide

/-- Claim C1 (amended): every trace the streaming task can produce — normal
drain or a read raising mid-stream — contains exactly one terminal
`command_exit` event, which carries the process's exit code and identity and
is preceded by the single deregistration of the Process from its Session,
every other trace element being an output record; the cleanup (wait, capture
exit code, deregister, emit terminal event) runs and empties the registry
entry on every exit path.  On the normal path the terminal event is moreover
the last event and the pushed records comprise exactly the stdout lines and
the stderr lines in producer order; on the exception path the surviving read
loop may still deliver output records after the terminal event. -/
theorem stream_run_terminal_cleanup (sm : SessionManager)
    (session_id : String) (process : Process)
    (stdoutLines stderrLines : List String) (trace : List StreamAction)
    (osCode : Int)
    (hrun : StreamRun process osCode stdoutLines stderrLines trace)
    (hh : process.hasHandle = true) :
    trace.countP StreamAction.isExit = 1 ∧
    (∃ l1 l2 l3, trace = l1 ++ StreamAction.deregister process.pid ::
        (l2 ++ StreamAction.exitEv (some (process.osReturncode.getD osCode))
          process.pid :: l3) ∧
      (∀ a ∈ l1, StreamAction.isOut a = true) ∧
      (∀ a ∈ l2, StreamAction.isOut a = true) ∧
      (∀ a ∈ l3, StreamAction.isOut a = true)) ∧
    (∀ emitted, Interleaves (read_stream stdoutLines "stdout" process.pid)
        (read_stream stderrLines "stderr" process.pid) emitted →
      (emitted ++ cleanupActions process osCode).getLast? =
        some (StreamAction.exitEv (some (process.osReturncode.getD osCode))
          process.pid) ∧
      (emitted ++ cleanupActions process osCode).filter
          (StreamAction.isOutType "stdout") =
        read_stream stdoutLines "stdout" process.pid ∧
      (emitted ++ cleanupActions process osCode).filter
          (StreamAction.isOutType "stderr") =
        read_stream stderrLines "stderr" process.pid) ∧
    (streamCleanupState sm session_id process osCode).get_process session_id
      process.pid = none := by
  have hexit : (process.wait osCode).exit_code =
      some (process.osReturncode.getD osCode) := by
    simp [Process.wait, hh]
  have hclean : cleanupActions process osCode =
      [StreamAction.deregister process.pid,
        StreamAction.exitEv (some (process.osReturncode.getD osCode))
          process.pid] := by
    rw [cleanupActions, hexit]
  have hdecomp : ∃ l1 l2 l3,
      trace = l1 ++ StreamAction.deregister process.pid ::
        (l2 ++ StreamAction.exitEv (some (process.osReturncode.getD osCode))
          process.pid :: l3) ∧
      (∀ a ∈ l1, StreamAction.isOut a = true) ∧
      (∀ a ∈ l2, StreamAction.isOut a = true) ∧
      (∀ a ∈ l3, StreamAction.isOut a = true) := by
    cases hrun with
    | normal emitted hm =>
      refine ⟨emitted, [], [], by simp [hclean], ?_, ?_, ?_⟩
      · intro a ha
        rcases interleaves_mem hm a ha with h1 | h1
        · exact read_stream_isOut _ _ _ a h1
        · exact read_stream_isOut _ _ _ a h1
      · intro a ha; cases ha
      · intro a ha; cases ha
    | readFails failed survivor j i pre post hstreams hpre hpost =>
      have hsurvOut : ∀ a ∈ survivor, StreamAction.isOut a = true := by
        rcases hstreams with ⟨hf, hsv⟩ | ⟨hf, hsv⟩
        · rw [hsv]; exact read_stream_isOut _ _ _
        · rw [hsv]; exact read_stream_isOut _ _ _
      have hfailOut : ∀ a ∈ failed, StreamAction.isOut a = true := by
        rcases hstreams with ⟨hf, hsv⟩ | ⟨hf, hsv⟩
        · rw [hf]; exact read_stream_isOut _ _ _
        · rw [hf]; exact read_stream_isOut _ _ _
      rcases interleaves_pair_right_decomp hpost hclean with
        ⟨m1, m2, m3, hz, hm1, hm2, hm3⟩
      refine ⟨pre ++ m1, m2, m3, ?_, ?_, ?_, ?_⟩
      · rw [hz, List.append_assoc]
      · intro a ha
        rcases List.mem_append.mp ha with h | h
        · rcases interleaves_mem hpre a h with hx | hx
          · exact hfailOut a (List.take_subset _ _ hx)
          · exact hsurvOut a (List.take_subset _ _ hx)
        · exact hsurvOut a (List.drop_subset _ _ (hm1 a h))
      · intro a ha
        exact hsurvOut a (List.drop_subset _ _ (hm2 a ha))
      · intro a ha
        exact hsurvOut a (List.drop_subset _ _ (hm3 a ha))
  obtain ⟨l1, l2, l3, hz, h1, h2, h3⟩ := hdecomp
  refine ⟨?_, ⟨l1, l2, l3, hz, h1, h2, h3⟩, ?_, ?_⟩
  · rw [hz]
    exact countP_isExit_decomp l1 l2 l3 process.pid _ h1 h2 h3
  · intro emitted hm
    refine ⟨?_, ?_, ?_⟩
    · rw [hclean]
      simp [List.getLast?_append]
    · rw [List.filter_append, cleanup_filter_out, List.append_nil]
      exact interleaves_filter_left hm
        (fun a ha => by
          rcases List.mem_map.mp ha with ⟨line, _, rfl⟩
          simp [StreamAction.isOutType])
        (fun a ha => by
          rcases List.mem_map.mp ha with ⟨line, _, rfl⟩
          simp [StreamAction.isOutType])
    · rw [List.filter_append, cleanup_filter_out, List.append_nil]
      exact interleaves_filter_left (interleaves_swap hm)
        (fun a ha => by
          rcases List.mem_map.mp ha with ⟨line, _, rfl⟩
          simp [StreamAction.isOutType])
        (fun a ha => by
          rcases List.mem_map.mp ha with ⟨line, _, rfl⟩
          simp [StreamAction.isOutType])
  · have hwpid : (process.wait osCode).pid = process.pid := by
      rw [Process.wait]; split <;> rfl
    have hg := get_process_remove_process sm session_id (process.wait osCode)
    rw [hwpid] at hg
    exact hg

/-- Witness for claim C1 (amended): the normal-path trace of streaming
`echo a; echo b 1>&2` (scenario C) contains exactly one terminal event, and
process 5 is no longer registered after the cleanup. -/
theorem stream_run_terminal_cleanup_witness :
    (claim1Emitted ++ cleanupActions claim1Process 0).countP
      StreamAction.isExit = 1 ∧
    (streamCleanupState claim1Manager "S" claim1Process 0).get_process "S" 5
      = none := by
  have hm : Interleaves (read_stream ["a\n"] "stdout" claim1Process.pid)
      (read_stream ["b\n"] "stderr" claim1Process.pid) claim1Emitted := by
    show Interleaves [StreamAction.out "a\n" "stdout" 5]
      [StreamAction.out "b\n" "stderr" 5] claim1Emitted
    exact .left (.right .nil)
  have h := stream_run_terminal_cleanup claim1Manager "S" claim1Process
    ["a\n"] ["b\n"] (claim1Emitted ++ cleanupActions claim1Process 0) 0
    (StreamRun.normal claim1Emitted hm) rfl
  exact ⟨h.1, h.2.2.2⟩

/-- Claim C10: the client's `command_output` / `command_exit` handlers raise
a lookup error exactly when no delivery queue exists for the event's
embedded process identity; and since stream-mode `run_command` creates the
queue for the returned process identity before emitting the
`start_command_stream` attach message, events of that process after the
attach always find their queue — the error branch is unreachable for
them. -/
theorem client_stream_queue_correlation (st : ClientState)
    (data : CommandOutput) (exitPid : Nat) (session_id : String) (pid : Nat)
    (line stype : String) :
    (exceptOk (SandboxClient.on_command_output st data) = false ↔
      lookupA st.stream_queues data.process_id = none) ∧
    (exceptOk (SandboxClient.on_command_exit st exitPid) = false ↔
      lookupA st.stream_queues exitPid = none) ∧
    exceptOk (SandboxClient.on_command_output
      (SandboxClient.run_command_stream st session_id pid).1
      ⟨line, stype, pid⟩) = true ∧
    exceptOk (SandboxClient.on_command_exit
      (SandboxClient.run_command_stream st session_id pid).1 pid) = true := by
  refine ⟨?_, ?_, ?_, ?_⟩
  · cases h : lookupA st.stream_queues data.process_id <;>
      simp [SandboxClient.on_command_output, h, exceptOk]
  · cases h : lookupA st.stream_queues exitPid <;>
      simp [SandboxClient.on_command_exit, h, exceptOk]
  · simp [SandboxClient.on_command_output, SandboxClient.run_command_stream,
      lookupA_insertA_self, exceptOk]
  · simp [SandboxClient.on_command_exit, SandboxClient.run_command_stream,
      lookupA_insertA_self, exceptOk]
